import Mathlib

/-!
Shallow embedding of the data-access layer in src/database.py.

The module persists three SQLite tables (users, user_configs, admin_threads)
and exposes ten operations over them.  Here the store is modelled as lists of
rows plus the AUTOINCREMENT counter for users.id; every operation of the
source becomes a pure function from the store to a result and a new store.

Conventions of the embedding:
* hashlib.sha256(password.encode()).hexdigest() is an opaque deterministic
  digest, modelled by an explicit function parameter hashFn.
* Every operation in the source wraps its body in try/except.  A store fault
  inside the body is modelled by an explicit fault parameter; when it fires,
  the exception handler of the source runs: the commit is never reached, so
  the open transaction is rolled back and the store is unchanged, and the
  handler's return value is produced.
* CURRENT_TIMESTAMP defaults are modelled by a caller-supplied tick (now).
* The SQLite column name_prefix is spelled namePrefix here; everything else
  keeps the source's names.
-/

namespace DatabasePy

/-- A row of the users table (init_db, src/database.py lines 18-26).
id is assigned by AUTOINCREMENT; is_active has column default 1 (true). -/
structure UserRow where
  id : Nat
  username : String
  password_hash : String
  created_at : Nat
  is_active : Bool
deriving DecidableEq, Repr

/-- A row of the user_configs table (init_db, lines 29-41).  delay has column
default 10 and automation_running column default 0 (false).  The source
column name_prefix is spelled namePrefix. -/
structure ConfigRow where
  user_id : Nat
  chat_id : String
  namePrefix : String
  delay : Int
  cookies : String
  messages : String
  automation_running : Bool
  updated_at : Nat
deriving DecidableEq, Repr

/-- A row of the admin_threads table (init_db, lines 44-53). -/
structure AdminThreadRow where
  user_id : Nat
  thread_id : String
  cookies : String
  chat_type : String
  created_at : Nat
deriving DecidableEq, Repr

/-- The store once the three tables exist: their rows plus the AUTOINCREMENT
counter next_id that the users table's INTEGER PRIMARY KEY AUTOINCREMENT
column draws from. -/
structure DB where
  users : List UserRow
  user_configs : List ConfigRow
  admin_threads : List AdminThreadRow
  next_id : Nat
deriving DecidableEq, Repr

/-- The store right after the three CREATE TABLE statements first run: no
rows, AUTOINCREMENT counter at 1. -/
def emptyDB : DB := ⟨[], [], [], 1⟩

/-- A raw store as init_db sees it: each table either absent (none) or
present with its contents.  Only whole-schema states arise in practice, but
CREATE TABLE IF NOT EXISTS acts on each table independently. -/
structure RawStore where
  usersTab : Option (List UserRow)
  configsTab : Option (List ConfigRow)
  threadsTab : Option (List AdminThreadRow)
deriving DecidableEq, Repr

/-- init_db (lines 13-56): three CREATE TABLE IF NOT EXISTS statements.  A
missing table is created empty; an existing table is left untouched,
contents included. -/
def init_db (s : RawStore) : RawStore :=
  { usersTab := some (s.usersTab.getD [])
    configsTab := some (s.configsTab.getD [])
    threadsTab := some (s.threadsTab.getD []) }

/-- The default messages value inserted by create_user (line 76): three
sample lines separated by newlines. -/
def sampleMessages : String := "Hello!\nHow are you?\nNice to meet you!"

/-- create_user (lines 58-85).  The UNIQUE NOT NULL constraint on username
makes the first INSERT raise sqlite3.IntegrityError exactly when the
username is already present, embedded as the initial duplicate test.
fault = some e injects a store exception at the config INSERT (line 74);
the handler at line 84 then returns before the commit at line 79, so the
transaction holding the user INSERT rolls back and the store is unchanged.
On success the new user gets id next_id, the SELECT at line 69 reads that id
back, and the config INSERT writes the fixed defaults, automation_running
coming from the column default 0. -/
def create_user (hashFn : String → String) (fault : Option String) (db : DB)
    (username password : String) (now : Nat) : (Bool × String) × DB :=
  if db.users.any (fun u => u.username == username) then
    ((false, "Username already exists!"), db)
  else
    match fault with
    | some e => ((false, "Error: " ++ e), db)
    | none =>
      let uid := db.next_id
      ((true, "Account created successfully!"),
       { db with
           users := db.users ++ [⟨uid, username, hashFn password, now, true⟩]
           user_configs := db.user_configs ++
             [⟨uid, "", "[END TO END]", 10, "", sampleMessages, false, now⟩]
           next_id := uid + 1 })

/-- verify_user (lines 87-101): SELECT id WHERE username, password digest and
is_active = 1 all match; returns the id of the first matching row, none when
no row matches.  fault = true injects any store error, which the bare except
at line 100 turns into None. -/
def verify_user (hashFn : String → String) (fault : Bool) (db : DB)
    (username password : String) : Option Nat :=
  if fault then none
  else
    (db.users.find? (fun u =>
        u.username == username && u.password_hash == hashFn password &&
          u.is_active)).map (fun u => u.id)

/-- The record get_user_config returns (lines 114-121): the five mutable
configuration fields. -/
structure ConfigView where
  chat_id : String
  namePrefix : String
  delay : Int
  cookies : String
  messages : String
deriving DecidableEq, Repr

/-- get_user_config (lines 103-124): SELECT the five mutable fields of the
config row keyed by user_id, none when no row exists or on a store fault. -/
def get_user_config (fault : Bool) (db : DB) (user_id : Nat) :
    Option ConfigView :=
  if fault then none
  else
    (db.user_configs.find? (fun c => c.user_id == user_id)).map
      (fun c => ⟨c.chat_id, c.namePrefix, c.delay, c.cookies, c.messages⟩)

/-- update_user_config (lines 126-142): UPDATE of the five mutable fields
plus updated_at = CURRENT_TIMESTAMP on every row WHERE user_id matches
(at most one under the primary key), returning True even when zero rows
match; fault = true makes the bare except return False with the store
rolled back. -/
def update_user_config (fault : Bool) (db : DB) (user_id : Nat)
    (chat_id namePrefix : String) (delay : Int) (cookies messages : String)
    (now : Nat) : Bool × DB :=
  if fault then (false, db)
  else
    (true,
     { db with
         user_configs := db.user_configs.map (fun c =>
           if c.user_id == user_id then
             { c with
                 chat_id := chat_id
                 namePrefix := namePrefix
                 delay := delay
                 cookies := cookies
                 messages := messages
                 updated_at := now }
           else c) })

/-- set_automation_running (lines 144-158): UPDATE of the single
automation_running column (persisted as 1 or 0) WHERE user_id matches,
returning True even when zero rows match; fault = true makes the bare
except return False with the store rolled back. -/
def set_automation_running (fault : Bool) (db : DB) (user_id : Nat)
    (running : Bool) : Bool × DB :=
  if fault then (false, db)
  else
    (true,
     { db with
         user_configs := db.user_configs.map (fun c =>
           if c.user_id == user_id then { c with automation_running := running }
           else c) })

/-- get_automation_running (lines 160-173): SELECT automation_running WHERE
user_id matches; returns the stored flag, or False when no row exists or on
a store fault. -/
def get_automation_running (fault : Bool) (db : DB) (user_id : Nat) : Bool :=
  if fault then false
  else
    match db.user_configs.find? (fun c => c.user_id == user_id) with
    | some c => c.automation_running
    | none => false

/-- get_username (lines 175-188): SELECT username WHERE id matches; none when
the id is unknown or on a store fault. -/
def get_username (fault : Bool) (db : DB) (user_id : Nat) : Option String :=
  if fault then none
  else (db.users.find? (fun u => u.id == user_id)).map (fun u => u.username)

/-- set_admin_e2ee_thread_id (lines 190-217): check-then-act upsert.  SELECT
for an existing row keyed by user_id; if found, UPDATE thread_id, cookies,
chat_type and created_at = CURRENT_TIMESTAMP in place; otherwise INSERT a
fresh row.  Returns True on success; fault = true makes the handler at line
215 log and return False with the store rolled back. -/
def set_admin_e2ee_thread_id (fault : Bool) (db : DB) (user_id : Nat)
    (thread_id cookies chat_type : String) (now : Nat) : Bool × DB :=
  if fault then (false, db)
  else if db.admin_threads.any (fun t => t.user_id == user_id) then
    (true,
     { db with
         admin_threads := db.admin_threads.map (fun t =>
           if t.user_id == user_id then
             ⟨user_id, thread_id, cookies, chat_type, now⟩
           else t) })
  else
    (true,
     { db with
         admin_threads :=
           db.admin_threads ++ [⟨user_id, thread_id, cookies, chat_type, now⟩] })

/-- get_admin_e2ee_thread_id (lines 219-232): SELECT thread_id WHERE user_id
matches; none when no row exists or on a store fault. -/
def get_admin_e2ee_thread_id (fault : Bool) (db : DB) (user_id : Nat) :
    Option String :=
  if fault then none
  else
    (db.admin_threads.find? (fun t => t.user_id == user_id)).map
      (fun t => t.thread_id)

/-- One mutating call of the public surface, with its fault injection;
read-only operations leave the store untouched and are omitted. -/
inductive Op where
  | opCreate (hashFn : String → String) (fault : Option String)
      (username password : String) (now : Nat)
  | opUpdateConfig (fault : Bool) (user_id : Nat) (chat_id namePrefix : String)
      (delay : Int) (cookies messages : String) (now : Nat)
  | opSetRunning (fault : Bool) (user_id : Nat) (running : Bool)
  | opSetAdminThread (fault : Bool) (user_id : Nat)
      (thread_id cookies chat_type : String) (now : Nat)

/-- Effect of one mutating call on the store. -/
def applyOp : Op → DB → DB
  | Op.opCreate h f u p n, db => (create_user h f db u p n).2
  | Op.opUpdateConfig f uid cid npfx d ck ms n, db =>
      (update_user_config f db uid cid npfx d ck ms n).2
  | Op.opSetRunning f uid r, db => (set_automation_running f db uid r).2
  | Op.opSetAdminThread f uid tid ck ct n, db =>
      (set_admin_e2ee_thread_id f db uid tid ck ct n).2

/-- Stores reachable from the freshly initialized schema by any sequence of
operations of the public surface. -/
inductive Reachable : DB → Prop where
  | base : Reachable emptyDB
  | step (op : Op) (db : DB) : Reachable db → Reachable (applyOp op db)

/-- Well-formedness the SQLite schema enforces: primary-key uniqueness on all
three tables, UNIQUE on username, and every id already handed out by
AUTOINCREMENT being below the counter. -/
def WF (db : DB) : Prop :=
  (db.users.map (fun u => u.id)).Nodup ∧
  (db.users.map (fun u => u.username)).Nodup ∧
  (db.user_configs.map (fun c => c.user_id)).Nodup ∧
  (db.admin_threads.map (fun t => t.user_id)).Nodup ∧
  (∀ u ∈ db.users, u.id < db.next_id) ∧
  (∀ c ∈ db.user_configs, c.user_id < db.next_id)

/-! ## Helper lemmas -/

/-- The freshly initialized store is well-formed. -/
theorem WF_emptyDB : WF emptyDB := by
  refine ⟨?_, ?_, ?_, ?_, ?_, ?_⟩ <;> simp [emptyDB]

/-- The duplicate test of create_user is false exactly when the username is
absent from the users table. -/
theorem users_any_eq_false {db : DB} {username : String}
    (h : ∀ u ∈ db.users, u.username ≠ username) :
    (db.users.any (fun u => u.username == username)) = false := by
  simp only [List.any_eq_false, beq_iff_eq]
  exact h

/-- create_user never touches the admin_threads table. -/
theorem create_user_admin_threads (hashFn : String → String)
    (fault : Option String) (db : DB) (username password : String) (now : Nat) :
    ((create_user hashFn fault db username password now).2).admin_threads =
      db.admin_threads := by
  unfold create_user
  split
  · rfl
  · cases fault <;> rfl

/-- update_user_config never touches the admin_threads table. -/
theorem update_user_config_admin_threads (fault : Bool) (db : DB) (uid : Nat)
    (cid npfx : String) (d : Int) (ck ms : String) (now : Nat) :
    ((update_user_config fault db uid cid npfx d ck ms now).2).admin_threads =
      db.admin_threads := by
  unfold update_user_config
  split <;> rfl

/-- set_automation_running never touches the admin_threads table. -/
theorem set_automation_running_admin_threads (fault : Bool) (db : DB)
    (uid : Nat) (r : Bool) :
    ((set_automation_running fault db uid r).2).admin_threads =
      db.admin_threads := by
  unfold set_automation_running
  split <;> rfl

/-- Mapping a key-preserving function across a list commutes with find?. -/
theorem find?_map_key_preserved {α : Type} (l : List α) (p : α → Bool)
    (f : α → α) (hpf : ∀ a, p (f a) = p a) :
    (l.map f).find? p = (l.find? p).map f := by
  have hc : (p ∘ f) = p := funext hpf
  rw [List.find?_map, hc]

/-- When filtering leaves a single element, find? returns it. -/
theorem find?_eq_of_filter_singleton {α : Type} {l : List α} {p : α → Bool}
    {a : α} (h : l.filter p = [a]) : l.find? p = some a := by
  induction l with
  | nil => simp at h
  | cons x xs ih =>
    by_cases hx : p x
    · rw [List.filter_cons_of_pos hx] at h
      injection h with h1 h2
      rw [List.find?_cons_of_pos _ hx, h1]
    · rw [List.filter_cons_of_neg hx] at h
      rw [List.find?_cons_of_neg _ hx]
      exact ih h

/-- Replacing the unique row keyed by uid and filtering on that key leaves
exactly the replacement row. -/
theorem filter_replace_eq_singleton (l : List AdminThreadRow) (uid : Nat)
    (row : AdminThreadRow) (hrow : row.user_id = uid)
    (hnd : (l.map (fun t => t.user_id)).Nodup)
    (hany : l.any (fun t => t.user_id == uid) = true) :
    (l.map (fun t => if t.user_id == uid then row else t)).filter
        (fun t => t.user_id == uid) = [row] := by
  induction l with
  | nil => simp at hany
  | cons x xs ih =>
    simp only [List.map_cons, List.nodup_cons] at hnd
    by_cases hx : x.user_id = uid
    · have hrest : ∀ t ∈ xs, ¬ t.user_id = uid := by
        intro t ht heq
        exact hnd.1 (List.mem_map.mpr ⟨t, ht, by rw [heq, ← hx]⟩)
      simp only [List.map_cons, if_pos (by simp [hx] : (x.user_id == uid) = true)]
      rw [List.filter_cons_of_pos (by simp [hrow])]
      have hnil : (xs.map (fun t => if t.user_id == uid then row else t)).filter
          (fun t => t.user_id == uid) = [] := by
        rw [List.filter_eq_nil_iff]
        intro a ha
        obtain ⟨t, ht, rfl⟩ := List.mem_map.mp ha
        have hne := hrest t ht
        simp [hne]
      rw [hnil]
    · have hany' : xs.any (fun t => t.user_id == uid) = true := by
        simp only [List.any_cons, Bool.or_eq_true] at hany
        rcases hany with hh | ht
        · exact absurd (by simpa using hh) hx
        · exact ht
      simp only [List.map_cons, if_neg (by simp [hx] : ¬ (x.user_id == uid) = true)]
      rw [List.filter_cons_of_neg (by simp [hx])]
      exact ih hnd.2 hany'

/-- One upsert preserves primary-key uniqueness of admin_threads. -/
theorem upsert_admin_nodup (fault : Bool) (db : DB) (uid : Nat)
    (tid ck ct : String) (now : Nat)
    (h : (db.admin_threads.map (fun t => t.user_id)).Nodup) :
    (((set_admin_e2ee_thread_id fault db uid tid ck ct now).2).admin_threads.map
        (fun t => t.user_id)).Nodup := by
  unfold set_admin_e2ee_thread_id
  split
  · exact h
  · split
    · have hkeys : (db.admin_threads.map (fun t =>
          if t.user_id == uid then (⟨uid, tid, ck, ct, now⟩ : AdminThreadRow)
          else t)).map (fun t => t.user_id) =
            db.admin_threads.map (fun t => t.user_id) := by
        rw [List.map_map]
        apply List.map_congr_left
        intro t _
        by_cases hc : t.user_id = uid
        · simp [hc]
        · simp [hc]
      rw [hkeys]
      exact h
    · rename_i hany
      have hfresh : ∀ t ∈ db.admin_threads, ¬ t.user_id = uid := by
        intro t ht heq
        exact hany (by simp only [List.any_eq_true]; exact ⟨t, ht, by simp [heq]⟩)
      simp only [List.map_append, List.nodup_append]
      refine ⟨h, by simp, ?_⟩
      intro a ha hb
      simp only [List.map_cons, List.map_nil, List.mem_singleton] at hb
      obtain ⟨t, ht, rfl⟩ := List.mem_map.mp ha
      exact hfresh t ht hb

/-- One upsert with no fault leaves exactly one admin_threads row keyed by
uid, holding the values just written. -/
theorem upsert_admin_filter (db : DB) (uid : Nat) (tid ck ct : String)
    (now : Nat) (h : (db.admin_threads.map (fun t => t.user_id)).Nodup) :
    ((set_admin_e2ee_thread_id false db uid tid ck ct now).2).admin_threads.filter
        (fun t => t.user_id == uid) = [⟨uid, tid, ck, ct, now⟩] := by
  unfold set_admin_e2ee_thread_id
  simp only [Bool.false_eq_true, if_false]
  split
  · rename_i hany
    exact filter_replace_eq_singleton db.admin_threads uid _ rfl h hany
  · rename_i hany
    have hfresh : ∀ t ∈ db.admin_threads, ¬ t.user_id = uid := by
      intro t ht heq
      exact hany (by simp only [List.any_eq_true]; exact ⟨t, ht, by simp [heq]⟩)
    rw [List.filter_append]
    have hnil : db.admin_threads.filter (fun t => t.user_id == uid) = [] := by
      rw [List.filter_eq_nil_iff]
      intro t ht
      simp [hfresh t ht]
    rw [hnil]
    simp

/-- A keyed UPDATE over rows none of which match leaves the table as it
was. -/
theorem map_update_no_match {l : List ConfigRow} {uid : Nat}
    (hnone : ∀ c ∈ l, c.user_id ≠ uid) (g : ConfigRow → ConfigRow) :
    l.map (fun c => if c.user_id == uid then g c else c) = l := by
  have h : ∀ c ∈ l, (if c.user_id == uid then g c else c) = c := by
    intro c hc
    simp [hnone c hc]
  rw [List.map_congr_left h]
  exact List.map_id' l

/-- verify_user returns none whenever no user row matches the username, the
digest and the active flag simultaneously. -/
theorem verify_user_eq_none (hashFn : String → String) (db : DB)
    (username password : String)
    (h : ∀ u ∈ db.users,
      ¬(u.username = username ∧ u.password_hash = hashFn password ∧
        u.is_active = true)) :
    verify_user hashFn false db username password = none := by
  unfold verify_user
  have hfind : db.users.find? (fun u =>
      u.username == username && u.password_hash == hashFn password &&
        u.is_active) = none := by
    rw [List.find?_eq_none]
    intro u hu
    have hnu := h u hu
    simp only [Bool.and_eq_true, beq_iff_eq]
    tauto
  simp [hfind]

/-! ## Claim theorems -/

/-- C8: schema initialization is idempotent: invoked on a store where the
three tables already exist it leaves every table's contents unchanged, and
initializing twice yields the same store state as initializing once. -/
theorem init_db_idempotent :
    (∀ us cs ts,
      init_db ⟨some us, some cs, some ts⟩ = ⟨some us, some cs, some ts⟩) ∧
    (∀ s : RawStore, init_db (init_db s) = init_db s) := by
  constructor
  · intro us cs ts
    rfl
  · intro s
    rfl

/-- C4: create_user on an already-present username returns failure with
exactly the message about the duplicate and leaves the whole store
unchanged (the UNIQUE violation aborts the transaction before any
commit). -/
theorem create_user_duplicate_username (hashFn : String → String)
    (fault : Option String) (db : DB) (username password : String) (now : Nat)
    (hdup : ∃ u ∈ db.users, u.username = username) :
    create_user hashFn fault db username password now =
      ((false, "Username already exists!"), db) := by
  obtain ⟨u, hu, heq⟩ := hdup
  have hany : db.users.any (fun v => v.username == username) = true := by
    simp only [List.any_eq_true]
    exact ⟨u, hu, by simp [heq]⟩
  simp [create_user, hany]

/-- Witness for C4: a store already holding the user alice rejects a second
alice. -/
theorem create_user_duplicate_username_witness :
    create_user (fun s => s) none
        ⟨[⟨1, "alice", "pw", 0, true⟩], [], [], 2⟩ "alice" "other" 5 =
      ((false, "Username already exists!"),
        ⟨[⟨1, "alice", "pw", 0, true⟩], [], [], 2⟩) :=
  create_user_duplicate_username (fun s => s) none
    ⟨[⟨1, "alice", "pw", 0, true⟩], [], [], 2⟩ "alice" "other" 5
    ⟨⟨1, "alice", "pw", 0, true⟩, by simp, rfl⟩

/-- C3: when the config insert fails after the user insert succeeded, the
commit at line 79 is never reached, so the store is exactly the original
one — in particular no row for the new username is persisted — and the call
reports the generic error result. -/
theorem create_user_config_fault_atomic (hashFn : String → String) (db : DB)
    (username password : String) (now : Nat) (e : String)
    (hfresh : ∀ u ∈ db.users, u.username ≠ username) :
    (create_user hashFn (some e) db username password now).2 = db ∧
    (∀ u ∈ (create_user hashFn (some e) db username password now).2.users,
      u.username ≠ username) ∧
    (create_user hashFn (some e) db username password now).1 =
      (false, "Error: " ++ e) := by
  have hany := users_any_eq_false hfresh
  have hstate : (create_user hashFn (some e) db username password now).2 = db := by
    simp [create_user, hany]
  refine ⟨hstate, ?_, ?_⟩
  · rw [hstate]
    exact hfresh
  · simp [create_user, hany]

/-- Witness for C3 at the empty store with an injected fault. -/
theorem create_user_config_fault_atomic_witness :
    (create_user (fun s => s) (some "disk full") emptyDB "alice" "pw" 0).2 =
      emptyDB ∧
    (∀ u ∈ (create_user (fun s => s) (some "disk full") emptyDB
        "alice" "pw" 0).2.users, u.username ≠ "alice") ∧
    (create_user (fun s => s) (some "disk full") emptyDB "alice" "pw" 0).1 =
      (false, "Error: " ++ "disk full") :=
  create_user_config_fault_atomic (fun s => s) emptyDB "alice" "pw" 0
    "disk full" (by simp [emptyDB])

/-- C9: on a user with no config row, update_user_config and
set_automation_running both report success although the store is unchanged:
a zero-row UPDATE still returns True, so the flag does not indicate that
the configuration exists. -/
theorem zero_row_update_reports_success (db : DB) (uid : Nat)
    (cid npfx : String) (d : Int) (ck ms : String) (now : Nat) (b : Bool)
    (hnone : ∀ c ∈ db.user_configs, c.user_id ≠ uid) :
    update_user_config false db uid cid npfx d ck ms now = (true, db) ∧
    set_automation_running false db uid b = (true, db) := by
  constructor
  · unfold update_user_config
    rw [map_update_no_match hnone]
    rfl
  · unfold set_automation_running
    rw [map_update_no_match hnone]
    rfl

/-- Witness for C9: a store whose only config row belongs to user 1, updated
at user 2. -/
theorem zero_row_update_reports_success_witness :
    update_user_config false ⟨[], [⟨1, "", "p", 5, "", "m", false, 0⟩], [], 2⟩
        2 "c" "n" 7 "k" "m2" 9 =
      (true, ⟨[], [⟨1, "", "p", 5, "", "m", false, 0⟩], [], 2⟩) ∧
    set_automation_running false
        ⟨[], [⟨1, "", "p", 5, "", "m", false, 0⟩], [], 2⟩ 2 true =
      (true, ⟨[], [⟨1, "", "p", 5, "", "m", false, 0⟩], [], 2⟩) :=
  zero_row_update_reports_success ⟨[], [⟨1, "", "p", 5, "", "m", false, 0⟩], [], 2⟩
    2 "c" "n" 7 "k" "m2" 9 true (by decide)

/-- C10: create_user performs no validation of its inputs: with an empty
username, or an empty password, it succeeds (the NOT NULL constraints do not
reject empty strings) and persists the user row and its default config
row. -/
theorem create_user_accepts_empty_inputs (hashFn : String → String) (db : DB)
    (now : Nat) (p u : String)
    (h1 : ∀ r ∈ db.users, r.username ≠ "")
    (h2 : ∀ r ∈ db.users, r.username ≠ u) :
    (create_user hashFn none db "" p now).1 =
      (true, "Account created successfully!") ∧
    (⟨db.next_id, "", hashFn p, now, true⟩ : UserRow) ∈
      (create_user hashFn none db "" p now).2.users ∧
    (⟨db.next_id, "", "[END TO END]", 10, "", sampleMessages, false, now⟩ :
      ConfigRow) ∈ (create_user hashFn none db "" p now).2.user_configs ∧
    (create_user hashFn none db u "" now).1 =
      (true, "Account created successfully!") ∧
    (⟨db.next_id, u, hashFn "", now, true⟩ : UserRow) ∈
      (create_user hashFn none db u "" now).2.users := by
  have ha1 := users_any_eq_false h1
  have ha2 := users_any_eq_false h2
  refine ⟨?_, ?_, ?_, ?_, ?_⟩ <;> simp [create_user, ha1, ha2]

/-- Witness for C10 at the empty store. -/
theorem create_user_accepts_empty_inputs_witness :
    (create_user (fun s => s) none emptyDB "" "pw" 0).1 =
      (true, "Account created successfully!") ∧
    (⟨1, "", "pw", 0, true⟩ : UserRow) ∈
      (create_user (fun s => s) none emptyDB "" "pw" 0).2.users ∧
    (⟨1, "", "[END TO END]", 10, "", sampleMessages, false, 0⟩ : ConfigRow) ∈
      (create_user (fun s => s) none emptyDB "" "pw" 0).2.user_configs ∧
    (create_user (fun s => s) none emptyDB "bob" "" 0).1 =
      (true, "Account created successfully!") ∧
    (⟨1, "bob", "", 0, true⟩ : UserRow) ∈
      (create_user (fun s => s) none emptyDB "bob" "" 0).2.users :=
  create_user_accepts_empty_inputs (fun s => s) emptyDB 0 "pw" "bob"
    (by simp [emptyDB]) (by simp [emptyDB])

/-- C1: create_user on a fresh username in a well-formed store succeeds with
exactly the success message, and the store afterwards holds exactly one
config row keyed by the new user's id, carrying chat_id = "", the
name-prefix default, delay 10, cookies = "", the sample messages and the
automation flag off; the sample messages are three lines joined by
newlines. -/
theorem create_user_fresh_defaults (hashFn : String → String) (db : DB)
    (username password : String) (now : Nat)
    (hfresh : ∀ u ∈ db.users, u.username ≠ username)
    (hwf : WF db) :
    (create_user hashFn none db username password now).1 =
      (true, "Account created successfully!") ∧
    (create_user hashFn none db username password now).2.user_configs.filter
        (fun c => c.user_id == db.next_id) =
      [⟨db.next_id, "", "[END TO END]", 10, "", sampleMessages, false, now⟩] ∧
    sampleMessages =
      String.intercalate "\n" ["Hello!", "How are you?", "Nice to meet you!"] := by
  have hany := users_any_eq_false hfresh
  obtain ⟨-, -, -, -, -, hcfg⟩ := hwf
  refine ⟨?_, ?_, ?_⟩
  · simp [create_user, hany]
  · have hnil : db.user_configs.filter (fun c => c.user_id == db.next_id) = [] := by
      rw [List.filter_eq_nil_iff]
      intro c hc
      have hlt := hcfg c hc
      simp only [beq_iff_eq]
      omega
    simp [create_user, hany, List.filter_append, hnil]
  · rfl

/-- Witness for C1 at the empty store. -/
theorem create_user_fresh_defaults_witness :
    (create_user (fun s => s) none emptyDB "alice" "pw" 0).1 =
      (true, "Account created successfully!") ∧
    (create_user (fun s => s) none emptyDB "alice" "pw" 0).2.user_configs.filter
        (fun c => c.user_id == emptyDB.next_id) =
      [⟨emptyDB.next_id, "", "[END TO END]", 10, "", sampleMessages, false, 0⟩] ∧
    sampleMessages =
      String.intercalate "\n" ["Hello!", "How are you?", "Nice to meet you!"] :=
  create_user_fresh_defaults (fun s => s) emptyDB "alice" "pw" 0
    (by simp [emptyDB]) WF_emptyDB

/-- C7: on a user owning a config row, setting the automation flag and
reading it back returns exactly the flag written; on a user with no config
row, reading the flag returns false. -/
theorem automation_flag_contract (db : DB) (uid : Nat) (b : Bool) :
    ((∃ c ∈ db.user_configs, c.user_id = uid) →
      get_automation_running false
        (set_automation_running false db uid b).2 uid = b) ∧
    ((∀ c ∈ db.user_configs, c.user_id ≠ uid) →
      get_automation_running false db uid = false) := by
  constructor
  · intro hex
    unfold set_automation_running get_automation_running
    have hpf : ∀ c : ConfigRow,
        ((if c.user_id == uid then { c with automation_running := b }
          else c).user_id == uid) = (c.user_id == uid) := by
      intro c
      by_cases hc : c.user_id = uid
      · simp [hc]
      · simp [hc]
    simp only [Bool.false_eq_true, if_false]
    rw [find?_map_key_preserved _ _ _ hpf]
    obtain ⟨c0, hc0, hkey⟩ := hex
    have hex2 : ∃ x ∈ db.user_configs, (x.user_id == uid) = true :=
      ⟨c0, hc0, by simp [hkey]⟩
    have hsome : (db.user_configs.find? (fun c => c.user_id == uid)).isSome :=
      List.find?_isSome.mpr hex2
    obtain ⟨c1, hfind⟩ := Option.isSome_iff_exists.mp hsome
    have hp1 : (c1.user_id == uid) = true := by
      have h := List.find?_some hfind
      simpa using h
    have hkey1 : c1.user_id = uid := by simpa using hp1
    rw [hfind]
    simp [hkey1]
  · intro hnone
    unfold get_automation_running
    have hfind : db.user_configs.find? (fun c => c.user_id == uid) = none := by
      rw [List.find?_eq_none]
      intro c hc
      simp [hnone c hc]
    simp [hfind]

/-- Witness for C7: write-then-read on user 1, read on the absent user 2. -/
theorem automation_flag_contract_witness :
    get_automation_running false
        (set_automation_running false
          ⟨[], [⟨1, "", "p", 5, "", "m", false, 0⟩], [], 2⟩ 1 true).2 1 = true ∧
    get_automation_running false
        ⟨[], [⟨1, "", "p", 5, "", "m", false, 0⟩], [], 2⟩ 2 = false :=
  ⟨(automation_flag_contract ⟨[], [⟨1, "", "p", 5, "", "m", false, 0⟩], [], 2⟩
      1 true).1 ⟨⟨1, "", "p", 5, "", "m", false, 0⟩, by simp, rfl⟩,
   (automation_flag_contract ⟨[], [⟨1, "", "p", 5, "", "m", false, 0⟩], [], 2⟩
      2 true).2 (by decide)⟩

/-- C5: on a user owning a config row, a full update of the five mutable
fields followed by a read returns exactly the five values last written. -/
theorem config_roundtrip (db : DB) (uid : Nat) (cid npfx : String) (d : Int)
    (ck ms : String) (now : Nat)
    (hex : ∃ c ∈ db.user_configs, c.user_id = uid) :
    get_user_config false
        (update_user_config false db uid cid npfx d ck ms now).2 uid =
      some ⟨cid, npfx, d, ck, ms⟩ := by
  unfold update_user_config get_user_config
  have hpf : ∀ c : ConfigRow,
      ((if c.user_id == uid then
          { c with chat_id := cid, namePrefix := npfx, delay := d,
                   cookies := ck, messages := ms, updated_at := now }
        else c).user_id == uid) = (c.user_id == uid) := by
    intro c
    by_cases hc : c.user_id = uid
    · simp [hc]
    · simp [hc]
  simp only [Bool.false_eq_true, if_false]
  rw [find?_map_key_preserved _ _ _ hpf]
  obtain ⟨c0, hc0, hkey⟩ := hex
  have hex2 : ∃ x ∈ db.user_configs, (x.user_id == uid) = true :=
    ⟨c0, hc0, by simp [hkey]⟩
  have hsome : (db.user_configs.find? (fun c => c.user_id == uid)).isSome :=
    List.find?_isSome.mpr hex2
  obtain ⟨c1, hfind⟩ := Option.isSome_iff_exists.mp hsome
  have hp1 : (c1.user_id == uid) = true := by
    have h := List.find?_some hfind
    simpa using h
  have hkey1 : c1.user_id = uid := by simpa using hp1
  rw [hfind]
  simp [hkey1]

/-- Witness for C5: update then read on user 1. -/
theorem config_roundtrip_witness :
    get_user_config false
        (update_user_config false
          ⟨[], [⟨1, "", "p", 5, "", "m", false, 0⟩], [], 2⟩
          1 "c9" "np" 42 "ck" "msgs" 3).2 1 =
      some ⟨"c9", "np", 42, "ck", "msgs"⟩ :=
  config_roundtrip ⟨[], [⟨1, "", "p", 5, "", "m", false, 0⟩], [], 2⟩
    1 "c9" "np" 42 "ck" "msgs" 3
    ⟨⟨1, "", "p", 5, "", "m", false, 0⟩, by simp, rfl⟩

/-- C2: after creating a user, verifying with the correct password returns
the id assigned at creation; verifying with a password of a different
digest, or with a username absent from the store, both return none; the two
failure results are identical; and a store fault makes verification return
none for every input instead of raising. -/
theorem verify_user_contract (hashFn : String → String) (db : DB)
    (username password : String) (now : Nat)
    (hfresh : ∀ u ∈ db.users, u.username ≠ username) :
    verify_user hashFn false
        (create_user hashFn none db username password now).2 username password =
      some db.next_id ∧
    (∀ wrong, hashFn wrong ≠ hashFn password →
      verify_user hashFn false
          (create_user hashFn none db username password now).2 username wrong =
        none) ∧
    (∀ other pw, other ≠ username → (∀ u ∈ db.users, u.username ≠ other) →
      verify_user hashFn false
          (create_user hashFn none db username password now).2 other pw =
        none) ∧
    (∀ wrong other pw, hashFn wrong ≠ hashFn password → other ≠ username →
      (∀ u ∈ db.users, u.username ≠ other) →
      verify_user hashFn false
          (create_user hashFn none db username password now).2 username wrong =
        verify_user hashFn false
          (create_user hashFn none db username password now).2 other pw) ∧
    (∀ (db2 : DB) (u2 p2 : String), verify_user hashFn true db2 u2 p2 = none) := by
  have hany := users_any_eq_false hfresh
  have husers : (create_user hashFn none db username password now).2.users =
      db.users ++ [⟨db.next_id, username, hashFn password, now, true⟩] := by
    simp [create_user, hany]
  have hcorrect : verify_user hashFn false
      (create_user hashFn none db username password now).2 username password =
        some db.next_id := by
    unfold verify_user
    simp only [Bool.false_eq_true, if_false]
    rw [husers, List.find?_append]
    have hold : db.users.find? (fun u =>
        u.username == username && u.password_hash == hashFn password &&
          u.is_active) = none := by
      rw [List.find?_eq_none]
      intro u hu
      simp [hfresh u hu]
    rw [hold]
    simp
  have hwrong : ∀ wrong, hashFn wrong ≠ hashFn password →
      verify_user hashFn false
          (create_user hashFn none db username password now).2 username wrong =
        none := by
    intro wrong hw
    apply verify_user_eq_none
    rw [husers]
    intro u hu
    rcases List.mem_append.mp hu with h1 | h2
    · rintro ⟨he, -, -⟩
      exact hfresh u h1 he
    · simp only [List.mem_singleton] at h2
      subst h2
      rintro ⟨-, hph, -⟩
      exact hw hph.symm
  have hother : ∀ other pw, other ≠ username →
      (∀ u ∈ db.users, u.username ≠ other) →
      verify_user hashFn false
          (create_user hashFn none db username password now).2 other pw =
        none := by
    intro other pw hne hab
    apply verify_user_eq_none
    rw [husers]
    intro u hu
    rcases List.mem_append.mp hu with h1 | h2
    · rintro ⟨he, -, -⟩
      exact hab u h1 he
    · simp only [List.mem_singleton] at h2
      subst h2
      rintro ⟨he, -, -⟩
      exact hne he.symm
  refine ⟨hcorrect, hwrong, hother, ?_, ?_⟩
  · intro wrong other pw hw hne hab
    rw [hwrong wrong hw, hother other pw hne hab]
  · intro db2 u2 p2
    simp [verify_user]

/-- Witness for C2: correct password finds id 1, wrong password and unknown
username find nothing, and an injected fault yields none. -/
theorem verify_user_contract_witness :
    verify_user (fun s => s) false
        (create_user (fun s => s) none emptyDB "alice" "pw" 0).2 "alice" "pw" =
      some 1 ∧
    verify_user (fun s => s) false
        (create_user (fun s => s) none emptyDB "alice" "pw" 0).2 "alice" "bad" =
      none ∧
    verify_user (fun s => s) false
        (create_user (fun s => s) none emptyDB "alice" "pw" 0).2 "bob" "pw" =
      none ∧
    verify_user (fun s => s) true emptyDB "alice" "pw" = none := by
  have h := verify_user_contract (fun s => s) emptyDB "alice" "pw" 0
    (by simp [emptyDB])
  exact ⟨h.1, h.2.1 "bad" (by decide), h.2.2.1 "bob" "pw" (by decide)
    (by simp [emptyDB]), h.2.2.2.2 emptyDB "alice" "pw"⟩

/-- C6: upserting the admin thread twice for the same user with different
thread ids leaves exactly one admin_threads row for that user, holding the
second call's thread id, cookies and chat type; reading then returns the
second thread id; and at most one admin_threads row per user holds in every
store reachable by any sequence of operations. -/
theorem admin_thread_upsert_contract (db : DB) (uid : Nat)
    (t1 ck1 ct1 t2 ck2 ct2 : String) (n1 n2 : Nat)
    (hne : t1 ≠ t2)
    (hnd : (db.admin_threads.map (fun t => t.user_id)).Nodup) :
    ((set_admin_e2ee_thread_id false
        (set_admin_e2ee_thread_id false db uid t1 ck1 ct1 n1).2
        uid t2 ck2 ct2 n2).2.admin_threads.filter
          (fun t => t.user_id == uid)) = [⟨uid, t2, ck2, ct2, n2⟩] ∧
    get_admin_e2ee_thread_id false
        (set_admin_e2ee_thread_id false
          (set_admin_e2ee_thread_id false db uid t1 ck1 ct1 n1).2
          uid t2 ck2 ct2 n2).2 uid = some t2 ∧
    (∀ db3, Reachable db3 →
      (db3.admin_threads.map (fun t => t.user_id)).Nodup) := by
  have hnd1 := upsert_admin_nodup false db uid t1 ck1 ct1 n1 hnd
  have hfilter := upsert_admin_filter
    (set_admin_e2ee_thread_id false db uid t1 ck1 ct1 n1).2 uid t2 ck2 ct2 n2
    hnd1
  refine ⟨hfilter, ?_, ?_⟩
  · unfold get_admin_e2ee_thread_id
    simp only [Bool.false_eq_true, if_false]
    rw [find?_eq_of_filter_singleton hfilter]
    rfl
  · intro db3 hr
    induction hr with
    | base => simp [emptyDB]
    | step op db4 hr4 ih =>
      cases op with
      | opCreate hf f u p n =>
        simp only [applyOp]
        rw [create_user_admin_threads]
        exact ih
      | opUpdateConfig f uid2 cid npfx d ck ms n =>
        simp only [applyOp]
        rw [update_user_config_admin_threads]
        exact ih
      | opSetRunning f uid2 r =>
        simp only [applyOp]
        rw [set_automation_running_admin_threads]
        exact ih
      | opSetAdminThread f uid2 tid ck ct n =>
        exact upsert_admin_nodup f db4 uid2 tid ck ct n ih

/-- Witness for C6: two upserts for user 1 starting from the empty store. -/
theorem admin_thread_upsert_contract_witness :
    ((set_admin_e2ee_thread_id false
        (set_admin_e2ee_thread_id false emptyDB 1 "a" "k1" "g1" 0).2
        1 "b" "k2" "g2" 1).2.admin_threads.filter
          (fun t => t.user_id == 1)) = [⟨1, "b", "k2", "g2", 1⟩] ∧
    get_admin_e2ee_thread_id false
        (set_admin_e2ee_thread_id false
          (set_admin_e2ee_thread_id false emptyDB 1 "a" "k1" "g1" 0).2
          1 "b" "k2" "g2" 1).2 1 = some "b" := by
  have h := admin_thread_upsert_contract emptyDB 1 "a" "k1" "g1" "b" "k2" "g2"
    0 1 (by decide) (by simp [emptyDB])
  exact ⟨h.1, h.2.1⟩

end DatabasePy
